import Mathlib

/-!
# Verification of the engine-rs content-inspection engine

Shallow embedding of `src/lib.rs`: a registry of per-route multi-pattern
substring matchers with FFI entry points for loading (base64 + JSON decoded)
rule sets, clearing them, and checking texts against them.

Byte buffers are modelled as `List Nat` (each element a byte value), nullable
pointers as `Option`, the pair (pointer, length) of the load entry point as a
single `Option (List Nat)` (where `none` models a null pointer and the list
length models `len`), and the process-global registry maps as functions
`Nat → Option _` threaded through the operations as explicit state.
-/

/-- One byte of a buffer. Values are kept in `Nat`; well-formed buffers have
entries below 256, which all decoders check implicitly by range tests. -/
abbrev Byte := Nat

/-- Is `b` a UTF-8 continuation byte (`0x80..0xBF`)? -/
def isCont (b : Byte) : Bool := 0x80 ≤ b && b < 0xC0

/-- Modelled from the spec: the source calls `str::from_utf8` (Rust standard
library, outside this repository) to interpret the blob bytes as text.
Standard UTF-8 decoding: rejects overlong encodings, surrogate code points,
code points above `0x10FFFF`, truncated sequences and stray continuation
bytes, exactly as `str::from_utf8` does. Returns the decoded characters. -/
def utf8Decode : List Byte → Option (List Char)
  | [] => some []
  | b :: rest =>
    if b < 0x80 then
      (utf8Decode rest).map (fun cs => Char.ofNat b :: cs)
    else if b < 0xC2 then
      none
    else if b < 0xE0 then
      match rest with
      | b1 :: rest' =>
        if isCont b1 then
          (utf8Decode rest').map
            (fun cs => Char.ofNat ((b - 0xC0) * 0x40 + (b1 - 0x80)) :: cs)
        else none
      | [] => none
    else if b < 0xF0 then
      match rest with
      | b1 :: b2 :: rest' =>
        if isCont b1 && isCont b2 then
          let cp := (b - 0xE0) * 0x1000 + (b1 - 0x80) * 0x40 + (b2 - 0x80)
          if cp < 0x800 then none
          else if 0xD800 ≤ cp && cp ≤ 0xDFFF then none
          else (utf8Decode rest').map (fun cs => Char.ofNat cp :: cs)
        else none
      | _ => none
    else if b < 0xF5 then
      match rest with
      | b1 :: b2 :: b3 :: rest' =>
        if isCont b1 && isCont b2 && isCont b3 then
          let cp := (b - 0xF0) * 0x40000 + (b1 - 0x80) * 0x1000 +
            (b2 - 0x80) * 0x40 + (b3 - 0x80)
          if cp < 0x10000 then none
          else if 0x10FFFF < cp then none
          else (utf8Decode rest').map (fun cs => Char.ofNat cp :: cs)
        else none
      | _ => none
    else none

/-- Modelled from the spec: value of one character of the standard base64
alphabet used by the `base64` crate's `STANDARD` engine (outside this
repository). -/
def b64Val (c : Char) : Option Nat :=
  if 'A' ≤ c && c ≤ 'Z' then some (c.toNat - 'A'.toNat)
  else if 'a' ≤ c && c ≤ 'z' then some (c.toNat - 'a'.toNat + 26)
  else if '0' ≤ c && c ≤ '9' then some (c.toNat - '0'.toNat + 52)
  else if c = '+' then some 62
  else if c = '/' then some 63
  else none

/-- Modelled from the spec: the source calls `STANDARD.decode` of the `base64`
crate (outside this repository). Canonical standard-alphabet base64 decoding:
the input is consumed in groups of four characters, padding `=` is required
and only allowed at the very end, and non-zero trailing bits are rejected
(the `STANDARD` engine's canonical-padding decode mode). -/
def b64Decode : List Char → Option (List Byte)
  | [] => some []
  | c0 :: c1 :: c2 :: c3 :: rest =>
    match b64Val c0, b64Val c1 with
    | some v0, some v1 =>
      if c2 = '=' then
        if c3 = '=' && rest.isEmpty && v1 % 16 = 0 then
          some [v0 * 4 + v1 / 16]
        else none
      else
        match b64Val c2 with
        | some v2 =>
          if c3 = '=' then
            if rest.isEmpty && v2 % 4 = 0 then
              some [v0 * 4 + v1 / 16, v1 % 16 * 16 + v2 / 4]
            else none
          else
            match b64Val c3 with
            | some v3 =>
              (b64Decode rest).map
                (fun bs => (v0 * 4 + v1 / 16) :: (v1 % 16 * 16 + v2 / 4) ::
                  (v2 % 4 * 64 + v3) :: bs)
            | none => none
        | none => none
    | _, _ => none
  | _ => none
  termination_by structural l => l

/-- JSON insignificant whitespace. -/
def jsonWs (c : Char) : Bool := c = ' ' || c = '\t' || c = '\n' || c = '\r'

/-- Drop leading JSON whitespace. -/
def skipWs : List Char → List Char
  | [] => []
  | c :: rest => if jsonWs c then skipWs rest else c :: rest

/-- Value of a hexadecimal digit, as accepted in JSON `\u` escapes, computed
on the character's code point. -/
def hexVal (c : Char) : Option Nat :=
  let n := c.toNat
  if 0x30 ≤ n && n ≤ 0x39 then some (n - 0x30)
  else if 0x61 ≤ n && n ≤ 0x66 then some (n - 0x61 + 10)
  else if 0x41 ≤ n && n ≤ 0x46 then some (n - 0x41 + 10)
  else none

/-- Single-character JSON string escapes. -/
def escChar (c : Char) : Option Char :=
  if c = '"' then some '"'
  else if c = '\\' then some '\\'
  else if c = '/' then some '/'
  else if c = 'b' then some (Char.ofNat 8)
  else if c = 'f' then some (Char.ofNat 12)
  else if c = 'n' then some '\n'
  else if c = 'r' then some '\r'
  else if c = 't' then some '\t'
  else none

/-- Modelled from the spec: body of a JSON string literal, as parsed by
`serde_json` (outside this repository); the input starts right after the
opening quote. Handles the simple escapes, `\uXXXX` escapes including
surrogate pairs (rejecting lone surrogates), and rejects raw control
characters. Returns the string's characters and the input after the closing
quote. -/
def jsonString : List Char → Option (List Char × List Char)
  | [] => none
  | '"' :: rest => some ([], rest)
  | '\\' :: 'u' :: h1 :: h2 :: h3 :: h4 :: rest =>
    match hexVal h1, hexVal h2, hexVal h3, hexVal h4 with
    | some d1, some d2, some d3, some d4 =>
      let cp := d1 * 0x1000 + d2 * 0x100 + d3 * 0x10 + d4
      if cp < 0xD800 || 0xDFFF < cp then
        (jsonString rest).map (fun (s, r) => (Char.ofNat cp :: s, r))
      else if cp ≤ 0xDBFF then
        match rest with
        | '\\' :: 'u' :: g1 :: g2 :: g3 :: g4 :: rest' =>
          match hexVal g1, hexVal g2, hexVal g3, hexVal g4 with
          | some e1, some e2, some e3, some e4 =>
            let cp2 := e1 * 0x1000 + e2 * 0x100 + e3 * 0x10 + e4
            if 0xDC00 ≤ cp2 && cp2 ≤ 0xDFFF then
              let comb := 0x10000 + (cp - 0xD800) * 0x400 + (cp2 - 0xDC00)
              (jsonString rest').map (fun (s, r) => (Char.ofNat comb :: s, r))
            else none
          | _, _, _, _ => none
        | _ => none
      else none
    | _, _, _, _ => none
  | '\\' :: e :: rest =>
    match escChar e with
    | some c => (jsonString rest).map (fun (s, r) => (c :: s, r))
    | none => none
  | c :: rest =>
    if c.toNat < 0x20 then none
    else (jsonString rest).map (fun (s, r) => (c :: s, r))

/-- Modelled from the spec: the comma-separated items of a non-empty JSON
array of strings, as parsed by `serde_json` (outside this repository) when
deserializing `Vec<String>`; any non-string element is rejected. `fuel`
bounds the recursion; callers pass the input length, which the loop cannot
exhaust since every iteration consumes at least two characters. -/
def jsonItems : Nat → List Char → Option (List (List Char) × List Char)
  | 0, _ => none
  | fuel + 1, l =>
    match skipWs l with
    | '"' :: rest =>
      match jsonString rest with
      | some (s, rest') =>
        match skipWs rest' with
        | ',' :: rest'' =>
          (jsonItems fuel rest'').map (fun (ss, r) => (s :: ss, r))
        | ']' :: rest'' => some ([s], rest'')
        | _ => none
      | none => none
    | _ => none

/-- Modelled from the spec: the source calls `serde_json::from_slice` to
deserialize the decoded bytes into `Vec<String>` (outside this repository).
The bytes must be UTF-8 and parse as a JSON array whose elements are all
strings, with nothing but whitespace after the closing bracket; any other
shape is an error. -/
def jsonStringArray (bs : List Byte) : Option (List (List Char)) :=
  match utf8Decode bs with
  | none => none
  | some cs =>
    match skipWs cs with
    | '[' :: rest =>
      match skipWs rest with
      | ']' :: rest' => if (skipWs rest').isEmpty then some [] else none
      | _ =>
        match jsonItems (rest.length + 1) rest with
        | some (ss, r) => if (skipWs r).isEmpty then some ss else none
        | none => none
    | _ => none






/-- `containsSub t p` holds when `p` occurs as a contiguous substring of `t`
(case-sensitive, element-exact). -/
def containsSub : List Char → List Char → Bool
  | [], p => p.isEmpty
  | c :: rest, p => p.isPrefixOf (c :: rest) || containsSub rest p

/-- Total size of a pattern set, in characters. -/
def acTotalLen (pats : List (List Char)) : Nat := (pats.map List.length).sum

/-- Modelled from the spec: the source calls `AhoCorasick::new` of the
`aho_corasick` crate (outside this repository). Per the spec, construction
"fails with `BuildFailed` if the underlying algorithm cannot represent the
pattern set (implementation-defined trigger, e.g. absurd size)", and "an
empty pattern set must be accepted". We model the automaton's size limit:
the build succeeds exactly when the total pattern size fits the 32-bit
state-identifier space. -/
def acBuildOk (pats : List (List Char)) : Bool :=
  decide (acTotalLen pats < 2 ^ 32)

/-- Modelled from the spec: `is_match` of an `AhoCorasick` automaton built
from `pats` (outside this repository) reports whether any pattern occurs as
a contiguous substring of the text, "case-sensitive, byte/codepoint-exact". -/
def acIsMatch (pats : List (List Char)) (t : List Char) : Bool :=
  pats.any (fun p => containsSub t p)

/-- The process-global mutable state of `lib.rs`: `ROUTE_ENGINES` maps a
route id to the patterns of its installed matcher (matchers are immutable,
so a matcher is represented by the pattern set it was built from), and
`ROUTE_PATTERN_COUNTS` maps a route id to its recorded pattern count. -/
structure EngineState where
  engines : Nat → Option (List (List Char))
  counts : Nat → Option Nat

/-- The lazily-initialized empty registry: no route configured. -/
def EngineState.init : EngineState := ⟨fun _ => none, fun _ => none⟩

/-- `decode_b64_json_patterns` of `lib.rs`: a null pointer or zero length is
`-1`; bytes that are not UTF-8, or text that is not valid base64, are `-2`;
decoded bytes that do not deserialize as a JSON array of strings are `-3`.
The nullable pointer plus length pair is modelled as `Option (List Byte)`. -/
def decode_b64_json_patterns (blob : Option (List Byte)) :
    Except Int (List (List Char)) :=
  match blob with
  | none => .error (-1)
  | some data =>
    if data.length = 0 then .error (-1)
    else
      match utf8Decode data with
      | none => .error (-2)
      | some b64_str =>
        match b64Decode b64_str with
        | none => .error (-2)
        | some decoded =>
          match jsonStringArray decoded with
          | none => .error (-3)
          | some patterns => .ok patterns

/-- `engine_load_route_rules` of `lib.rs`: decode the blob, build the
matcher (error `-4` on build failure), then install the matcher and the
pattern count for `route_id`. Returns the status code and the new state. -/
def engine_load_route_rules (route_id : Nat) (blob : Option (List Byte))
    (s : EngineState) : Int × EngineState :=
  match decode_b64_json_patterns blob with
  | .error code => (code, s)
  | .ok patterns =>
    if acBuildOk patterns then
      (0,
        { engines := fun r => if r = route_id then some patterns else s.engines r,
          counts := fun r => if r = route_id then some patterns.length else s.counts r })
    else (-4, s)

/-- `engine_clear_route_rules` of `lib.rs`: remove `route_id` from both maps
(absence is not an error); always returns `0`. -/
def engine_clear_route_rules (route_id : Nat) (s : EngineState) :
    Int × EngineState :=
  (0,
    { engines := fun r => if r = route_id then none else s.engines r,
      counts := fun r => if r = route_id then none else s.counts r })

/-- `engine_clear_all_rules` of `lib.rs`: empty both maps; always returns `0`. -/
def engine_clear_all_rules (_s : EngineState) : Int × EngineState :=
  (0, { engines := fun _ => none, counts := fun _ => none })

/-- `engine_check_response_for_route` of `lib.rs`: `0` for a null content
pointer, content bytes that are not valid UTF-8, or a route with no matcher
installed; otherwise `1` when the route's matcher matches the text and `0`
when it does not. The C string is modelled as `Option (List Byte)` (its
bytes up to the NUL terminator, `none` for a null pointer). The function
only reads the registry; it returns the state unchanged. -/
def engine_check_response_for_route (route_id : Nat)
    (content : Option (List Byte)) (s : EngineState) : Int × EngineState :=
  match content with
  | none => (0, s)
  | some bytes =>
    match utf8Decode bytes with
    | none => (0, s)
    | some text =>
      match s.engines route_id with
      | none => (0, s)
      | some pats => (if acIsMatch pats text then 1 else 0, s)

/-- `engine_load_rules` of `lib.rs` (legacy): load global rules; maps to
`route_id = 0`. -/
def engine_load_rules (blob : Option (List Byte)) (s : EngineState) :
    Int × EngineState :=
  engine_load_route_rules 0 blob s

/-- `engine_check_response` of `lib.rs` (legacy): check against global rules
(`route_id = 0`). -/
def engine_check_response (content : Option (List Byte)) (s : EngineState) :
    Int × EngineState :=
  engine_check_response_for_route 0 content s

/-- Bytes of the base64 text `WyJhYiJd`, which encodes the JSON `["ab"]`. -/
def blobAB : List Byte := [0x57, 0x79, 0x4A, 0x68, 0x59, 0x69, 0x4A, 0x64]

/-- Bytes of the base64 text `W10=`, which encodes the JSON `[]`. -/
def blobEmpty : List Byte := [0x57, 0x31, 0x30, 0x3D]




/-- `containsSub` decides occurrence as a contiguous substring (`<:+:`). -/
theorem containsSub_iff (t p : List Char) : containsSub t p = true ↔ p <:+: t := by
  induction t with
  | nil => simp [containsSub, List.isEmpty_iff, List.infix_nil]
  | cons c rest ih =>
    simp [containsSub, List.infix_cons_iff, ih, List.isPrefixOf_iff_prefix]

/-- The modelled matcher matches iff some pattern is a contiguous substring. -/
theorem acIsMatch_iff (pats : List (List Char)) (t : List Char) :
    acIsMatch pats t = true ↔ ∃ p ∈ pats, p <:+: t := by
  simp [acIsMatch, containsSub_iff]

/-- An if-then-else on the match result equals `1` iff the condition holds. -/
theorem ite_int_eq_one (b : Bool) : ((if b then (1 : Int) else 0) = 1) ↔ b = true := by
  cases b <;> simp

/-- Checking depends on the state only through the queried route's matcher. -/
theorem check_congr (r : Nat) (c : Option (List Byte)) (s s' : EngineState)
    (h : s.engines r = s'.engines r) :
    (engine_check_response_for_route r c s).1 =
      (engine_check_response_for_route r c s').1 := by
  cases c with
  | none => rfl
  | some bytes =>
    unfold engine_check_response_for_route
    cases hu : utf8Decode bytes with
    | none => simp [hu]
    | some t =>
      simp only [hu, h]
      cases s'.engines r <;> rfl

/-- An if-then-else on the match result equals `0` iff the condition fails. -/
theorem ite_int_eq_zero (b : Bool) :
    ((if b then (1 : Int) else 0) = 0) ↔ b = false := by
  cases b <;> simp

/-- A successful decode followed by a successful build installs the pattern
set and its count at the loaded route and returns `0`. -/
theorem load_ok_state (r : Nat) (blob : Option (List Byte)) (s : EngineState)
    (P : List (List Char)) (hdec : decode_b64_json_patterns blob = .ok P)
    (hac : acBuildOk P = true) :
    engine_load_route_rules r blob s =
      (0,
        { engines := fun r' => if r' = r then some P else s.engines r',
          counts := fun r' => if r' = r then some P.length else s.counts r' }) := by
  unfold engine_load_route_rules
  rw [hdec]
  simp [hac]

/-- A successful decode followed by a failing build returns `-4` and leaves
the state unchanged. -/
theorem load_build_fail_state (r : Nat) (blob : Option (List Byte))
    (s : EngineState) (P : List (List Char))
    (hdec : decode_b64_json_patterns blob = .ok P)
    (hac : ¬acBuildOk P = true) :
    engine_load_route_rules r blob s = (-4, s) := by
  unfold engine_load_route_rules
  rw [hdec]
  simp [hac]

/-- If the load returned `0` on a blob decoding to `P`, the build succeeded. -/
theorem load_zero_build (r : Nat) (blob : Option (List Byte)) (s : EngineState)
    (P : List (List Char)) (hdec : decode_b64_json_patterns blob = .ok P)
    (h0 : (engine_load_route_rules r blob s).1 = 0) : acBuildOk P = true := by
  by_contra hac
  rw [load_build_fail_state r blob s P hdec hac] at h0
  have h4 : (-4 : Int) = 0 := h0
  exact absurd h4 (by decide)

/-- Evaluating a check when the content decodes and the route is configured. -/
theorem check_eval (r : Nat) (c : List Byte) (t : List Char) (s : EngineState)
    (P : List (List Char)) (ht : utf8Decode c = some t)
    (hr : s.engines r = some P) :
    (engine_check_response_for_route r (some c) s).1 =
      if acIsMatch P t then 1 else 0 := by
  unfold engine_check_response_for_route
  simp [ht, hr]

/-- **C1.** After `engine_load_route_rules r blob len` succeeds (returns `0`)
on a blob that base64-encodes a JSON array `P`,
`engine_check_response_for_route r t` returns `1` iff some string in `P`
occurs as a contiguous substring of the text `t` (case-sensitive,
byte-exact), and returns `0` otherwise. -/
theorem C1_load_then_check_iff_substring (r : Nat) (blob : Option (List Byte))
    (s : EngineState) (P : List (List Char)) (c : List Byte) (t : List Char)
    (hdec : decode_b64_json_patterns blob = .ok P)
    (h0 : (engine_load_route_rules r blob s).1 = 0)
    (ht : utf8Decode c = some t) :
    ((engine_check_response_for_route r (some c)
        (engine_load_route_rules r blob s).2).1 = 1 ↔ ∃ p ∈ P, p <:+: t) ∧
    ((engine_check_response_for_route r (some c)
        (engine_load_route_rules r blob s).2).1 = 0 ↔ ¬∃ p ∈ P, p <:+: t) := by
  have hac := load_zero_build r blob s P hdec h0
  have hstate := load_ok_state r blob s P hdec hac
  have hr : (engine_load_route_rules r blob s).2.engines r = some P := by
    rw [hstate]
    simp
  have heval := check_eval r c t _ P ht hr
  rw [heval, ite_int_eq_one, ite_int_eq_zero, acIsMatch_iff]
  constructor
  · rfl
  · rw [← acIsMatch_iff]
    cases acIsMatch P t <;> simp

/-- Witness for C1 at route 1, blob `base64("[\"ab\"]")`, text `"xaby"`. -/
theorem C1_witness :
    decode_b64_json_patterns (some blobAB) = .ok [['a', 'b']] ∧
    (engine_load_route_rules 1 (some blobAB) EngineState.init).1 = 0 ∧
    utf8Decode [0x78, 0x61, 0x62, 0x79] = some ['x', 'a', 'b', 'y'] ∧
    (((engine_check_response_for_route 1 (some [0x78, 0x61, 0x62, 0x79])
        (engine_load_route_rules 1 (some blobAB) EngineState.init).2).1 = 1 ↔
        ∃ p ∈ [['a', 'b']], p <:+: ['x', 'a', 'b', 'y']) ∧
      ((engine_check_response_for_route 1 (some [0x78, 0x61, 0x62, 0x79])
        (engine_load_route_rules 1 (some blobAB) EngineState.init).2).1 = 0 ↔
        ¬∃ p ∈ [['a', 'b']], p <:+: ['x', 'a', 'b', 'y'])) :=
  ⟨rfl, by decide, by decide,
    C1_load_then_check_iff_substring 1 (some blobAB) EngineState.init
      [['a', 'b']] [0x78, 0x61, 0x62, 0x79] ['x', 'a', 'b', 'y']
      rfl (by decide) (by decide)⟩

/-- **C3.** `engine_load_route_rules` maps each failure stage to a distinct
status code: `-1` for a null blob pointer or zero length, `-2` for blob
bytes that are not valid UTF-8 or not valid base64, `-3` for decoded bytes
that are not a JSON array of strings, `-4` when matcher construction from
the decoded pattern list fails, and `0` on success. -/
theorem C3_load_status_codes (r : Nat) (blob : Option (List Byte))
    (s : EngineState) :
    ((engine_load_route_rules r blob s).1 = -1 ↔
      blob = none ∨ blob = some []) ∧
    ((engine_load_route_rules r blob s).1 = -2 ↔
      ∃ bs, blob = some bs ∧ bs ≠ [] ∧
        (utf8Decode bs = none ∨
          ∃ cs, utf8Decode bs = some cs ∧ b64Decode cs = none)) ∧
    ((engine_load_route_rules r blob s).1 = -3 ↔
      ∃ bs cs ds, blob = some bs ∧ bs ≠ [] ∧ utf8Decode bs = some cs ∧
        b64Decode cs = some ds ∧ jsonStringArray ds = none) ∧
    ((engine_load_route_rules r blob s).1 = -4 ↔
      ∃ P, decode_b64_json_patterns blob = .ok P ∧ acBuildOk P = false) ∧
    ((engine_load_route_rules r blob s).1 = 0 ↔
      ∃ P, decode_b64_json_patterns blob = .ok P ∧ acBuildOk P = true) := by
  cases blob with
  | none => simp [engine_load_route_rules, decode_b64_json_patterns]
  | some bs =>
    rcases eq_or_ne bs [] with rfl | hne
    · simp [engine_load_route_rules, decode_b64_json_patterns]
    · have hlen : ¬bs.length = 0 := fun h => hne (List.length_eq_zero.mp h)
      cases hu : utf8Decode bs with
      | none =>
        simp [engine_load_route_rules, decode_b64_json_patterns, hlen, hne, hu]
      | some cs =>
        cases hb : b64Decode cs with
        | none =>
          simp [engine_load_route_rules, decode_b64_json_patterns, hlen, hne,
            hu, hb]
        | some ds =>
          cases hj : jsonStringArray ds with
          | none =>
            simp [engine_load_route_rules, decode_b64_json_patterns, hlen,
              hne, hu, hb, hj]
          | some P =>
            by_cases hac : acBuildOk P = true
            · simp [engine_load_route_rules, decode_b64_json_patterns, hlen,
                hne, hu, hb, hj, hac]
            · simp [engine_load_route_rules, decode_b64_json_patterns, hlen,
                hne, hu, hb, hj, hac, Bool.not_eq_true]

/-- **C4.** If `engine_load_route_rules` returns a nonzero (error) code, the
registry state is completely unchanged: every route's matcher binding and
pattern count is exactly as before the call. -/
theorem C4_load_error_state_unchanged (r : Nat) (blob : Option (List Byte))
    (s : EngineState) (h : (engine_load_route_rules r blob s).1 ≠ 0) :
    (engine_load_route_rules r blob s).2 = s := by
  unfold engine_load_route_rules at *
  cases hd : decode_b64_json_patterns blob with
  | error code => simp [hd]
  | ok P =>
    by_cases hac : acBuildOk P = true
    · simp [hd, hac] at h
    · simp [hd, hac]

/-- Witness for C4: a null blob fails the load and leaves the state intact. -/
theorem C4_witness :
    (engine_load_route_rules 0 none EngineState.init).1 ≠ 0 ∧
    (engine_load_route_rules 0 none EngineState.init).2 = EngineState.init :=
  ⟨by decide, C4_load_error_state_unchanged 0 none EngineState.init (by decide)⟩

/-- **C5.** `engine_clear_route_rules r` returns `0` for every route id and
prior state (idempotent; absence is not an error), and afterwards
`engine_check_response_for_route r` returns `0` (no match) for every
content. -/
theorem C5_clear_then_no_match (r : Nat) (s : EngineState)
    (c : Option (List Byte)) :
    (engine_clear_route_rules r s).1 = 0 ∧
    (engine_check_response_for_route r c (engine_clear_route_rules r s).2).1 =
      0 := by
  refine ⟨rfl, ?_⟩
  cases c with
  | none => rfl
  | some bytes =>
    unfold engine_check_response_for_route engine_clear_route_rules
    cases hu : utf8Decode bytes with
    | none => simp [hu]
    | some t => simp [hu]

/-- **C6.** `engine_check_response_for_route` never reports an error: a route
with no entry in the registry, a null content pointer, and content bytes
that are not valid UTF-8 all return `0`, indistinguishable from a genuine
no-match. -/
theorem C6_check_fail_open (r : Nat) (c : Option (List Byte)) (s : EngineState)
    (h : s.engines r = none ∨ c = none ∨
      ∃ bs, c = some bs ∧ utf8Decode bs = none) :
    (engine_check_response_for_route r c s).1 = 0 := by
  rcases h with hr | hc | ⟨bs, rfl, hu⟩
  · cases c with
    | none => rfl
    | some bytes =>
      unfold engine_check_response_for_route
      cases hu : utf8Decode bytes with
      | none => simp [hu]
      | some t => simp [hu, hr]
  · subst hc; rfl
  · unfold engine_check_response_for_route
    simp [hu]

/-- Witness for C6: a null content pointer on the empty registry. -/
theorem C6_witness :
    (engine_check_response_for_route 5 none EngineState.init).1 = 0 :=
  C6_check_fail_open 5 none EngineState.init (Or.inr (Or.inl rfl))

/-- **C7.** The legacy entry points are exact equivalents of the route-aware
ones at route id `0`: `engine_load_rules` returns the same result and
produces the same registry state as `engine_load_route_rules 0`, and
`engine_check_response` returns the same result as
`engine_check_response_for_route 0`; they share one data path and state. -/
theorem C7_legacy_equiv (blob c : Option (List Byte)) (s s' : EngineState) :
    engine_load_rules blob s = engine_load_route_rules 0 blob s ∧
    engine_check_response c s' = engine_check_response_for_route 0 c s' :=
  ⟨rfl, rfl⟩

/-- **C8.** Loading an empty pattern set succeeds rather than erroring: a
blob whose decode pipeline yields the JSON array `[]` returns `0`, and
afterwards checking the route reports no match for every content. -/
theorem C8_empty_pattern_set (r : Nat) (blob : Option (List Byte))
    (s : EngineState) (hdec : decode_b64_json_patterns blob = .ok [])
    (c : Option (List Byte)) :
    (engine_load_route_rules r blob s).1 = 0 ∧
    (engine_check_response_for_route r c (engine_load_route_rules r blob s).2).1 =
      0 := by
  have hstate := load_ok_state r blob s [] hdec (by decide)
  rw [hstate]
  refine ⟨rfl, ?_⟩
  cases c with
  | none => rfl
  | some bytes =>
    unfold engine_check_response_for_route
    cases hu : utf8Decode bytes with
    | none => simp [hu]
    | some t => simp [hu, acIsMatch]

/-- Witness for C8: the blob `base64("[]")` loads route 2 and a subsequent
check reports no match. -/
theorem C8_witness :
    decode_b64_json_patterns (some blobEmpty) = .ok [] ∧
    (engine_load_route_rules 2 (some blobEmpty) EngineState.init).1 = 0 ∧
    (engine_check_response_for_route 2 (some [0x78])
      (engine_load_route_rules 2 (some blobEmpty) EngineState.init).2).1 = 0 :=
  ⟨rfl,
    (C8_empty_pattern_set 2 (some blobEmpty) EngineState.init rfl
      (some [0x78])).1,
    (C8_empty_pattern_set 2 (some blobEmpty) EngineState.init rfl
      (some [0x78])).2⟩

/-- **C9.** `engine_check_response_for_route` is side-effect-free: for every
route id and content, the call leaves the entire registry state unchanged. -/
theorem C9_check_is_pure (r : Nat) (c : Option (List Byte)) (s : EngineState) :
    (engine_check_response_for_route r c s).2 = s := by
  unfold engine_check_response_for_route
  cases c with
  | none => rfl
  | some bytes =>
    cases hu : utf8Decode bytes with
    | none => simp [hu]
    | some t =>
      simp only [hu]
      cases hs : s.engines r with
      | none => simp [hs]
      | some pats => simp [hs]

/-- **C10.** Per-route isolation: for distinct route ids `r ≠ r'`, loading or
clearing route `r` leaves route `r'`'s matcher binding and pattern count
unchanged, and checking route `r'` returns the same result before and after
the operation. -/
theorem C10_route_isolation (r r' : Nat) (blob : Option (List Byte))
    (s : EngineState) (c : Option (List Byte)) (hne : r' ≠ r) :
    ((engine_load_route_rules r blob s).2.engines r' = s.engines r' ∧
      (engine_load_route_rules r blob s).2.counts r' = s.counts r' ∧
      (engine_check_response_for_route r' c
          (engine_load_route_rules r blob s).2).1 =
        (engine_check_response_for_route r' c s).1) ∧
    ((engine_clear_route_rules r s).2.engines r' = s.engines r' ∧
      (engine_clear_route_rules r s).2.counts r' = s.counts r' ∧
      (engine_check_response_for_route r' c
          (engine_clear_route_rules r s).2).1 =
        (engine_check_response_for_route r' c s).1) := by
  have hle : (engine_load_route_rules r blob s).2.engines r' = s.engines r' := by
    unfold engine_load_route_rules
    cases hd : decode_b64_json_patterns blob with
    | error code => simp [hd]
    | ok P =>
      by_cases hac : acBuildOk P = true
      · simp [hd, hac, hne]
      · simp [hd, hac]
  have hlc : (engine_load_route_rules r blob s).2.counts r' = s.counts r' := by
    unfold engine_load_route_rules
    cases hd : decode_b64_json_patterns blob with
    | error code => simp [hd]
    | ok P =>
      by_cases hac : acBuildOk P = true
      · simp [hd, hac, hne]
      · simp [hd, hac]
  have hce : (engine_clear_route_rules r s).2.engines r' = s.engines r' := by
    unfold engine_clear_route_rules
    simp [hne]
  have hcc : (engine_clear_route_rules r s).2.counts r' = s.counts r' := by
    unfold engine_clear_route_rules
    simp [hne]
  exact ⟨⟨hle, hlc, check_congr r' c _ s hle⟩, ⟨hce, hcc, check_congr r' c _ s hce⟩⟩

/-- Witness for C10: loading route 0 and clearing route 0 do not disturb
route 1, starting from the empty registry. -/
theorem C10_witness :
    (1 : Nat) ≠ 0 ∧
    (((engine_load_route_rules 0 (some blobAB) EngineState.init).2.engines 1 =
        EngineState.init.engines 1 ∧
      (engine_load_route_rules 0 (some blobAB) EngineState.init).2.counts 1 =
        EngineState.init.counts 1 ∧
      (engine_check_response_for_route 1 none
          (engine_load_route_rules 0 (some blobAB) EngineState.init).2).1 =
        (engine_check_response_for_route 1 none EngineState.init).1) ∧
    ((engine_clear_route_rules 0 EngineState.init).2.engines 1 =
        EngineState.init.engines 1 ∧
      (engine_clear_route_rules 0 EngineState.init).2.counts 1 =
        EngineState.init.counts 1 ∧
      (engine_check_response_for_route 1 none
          (engine_clear_route_rules 0 EngineState.init).2).1 =
        (engine_check_response_for_route 1 none EngineState.init).1)) :=
  ⟨by decide,
    C10_route_isolation 0 1 (some blobAB) EngineState.init none (by decide)⟩
